import Mathlib

/-!
The dnsimple resource endpoint binding: domains and zone records.

A shallow embedding of `dnsimple/domains.go` and `dnsimple/zones_records.go`
(vendored `aetrion/dnsimple-go`), and theorems about path construction, the
calls each operation hands to the transport client, and the envelopes it
returns.
-/

namespace Dnsimple

/-! ## Go values -/

/-- Dynamic values of the Go type `interface{}` that can reach `domainIdentifier`:
the nil interface, a `string`, an `int`, and two representatives of dynamic types
that are neither (`int64` is a different type from `int` in a Go type switch). -/
inductive Value where
  | nil
  | str (s : String)
  | int (n : Int)
  | int64 (n : Int)
  | bool (b : Bool)
  deriving DecidableEq, Repr

/-- Go `value != nil` on an interface value. -/
def Value.isNil : Value → Bool
  | .nil => true
  | _ => false

/-- Go `fmt.Sprintf("%d", n)` for an `int`: an optional minus sign followed by
the decimal digits of the magnitude. -/
def sprintfD (n : Int) : String :=
  if n < 0 then "-" ++ Nat.repr n.natAbs else Nat.repr n.natAbs

/-! ## domains.go: identifiers and paths -/

/-- Source: `domainIdentifier`, a type switch with cases `string` and `int` and a
fall-through `return ""`. -/
def domainIdentifier (value : Value) : String :=
  match value with
  | .str value => value
  | .int value => sprintfD value
  | _ => ""

/-- Source: `domainPath`. `%v` of a string is the string itself. -/
def domainPath (accountID : String) (domain : Value) : String :=
  if !domain.isNil then
    "/" ++ accountID ++ "/domains/" ++ domainIdentifier domain
  else
    "/" ++ accountID ++ "/domains"

/-! ## zones_records.go: paths -/

/-- Source: `zoneRecordPath`. -/
def zoneRecordPath (accountID : String) (zoneID : String) (recordID : Int) : String :=
  let path := "/" ++ accountID ++ "/zones/" ++ zoneID ++ "/records"
  if recordID != 0 then
    path ++ ("/" ++ sprintfD recordID)
  else
    path

/-! ## Records, envelopes and the transport client -/

/-- Source: `type Domain struct` (Go `int` as `Int`). -/
structure Domain where
  ID : Int := 0
  AccountID : Int := 0
  RegistrantID : Int := 0
  Name : String := ""
  UnicodeName : String := ""
  Token : String := ""
  State : String := ""
  AutoRenew : Bool := false
  PrivateWhois : Bool := false
  ExpiresOn : String := ""
  CreatedAt : String := ""
  UpdatedAt : String := ""
  deriving DecidableEq, Repr

/-- Source: `type ZoneRecord struct` (the field `Type` is written `Type_`,
`Type` being reserved). -/
structure ZoneRecord where
  ID : Int := 0
  ZoneID : String := ""
  ParentID : Int := 0
  Type_ : String := ""
  Name : String := ""
  Content : String := ""
  TTL : Int := 0
  Priority : Int := 0
  SystemRecord : Bool := false
  CreatedAt : String := ""
  UpdatedAt : String := ""
  deriving DecidableEq, Repr

/-- Modelled from the spec: the embedded `Response` struct is declared outside
`domains.go` and `zones_records.go`. The envelope "pairs a transport-level
response handle" with the payload; `HttpResponse` is the one field the
operations assign. `R` is the transport response type (`http.Response`), and
`none` is the nil pointer. -/
structure Response (R : Type) where
  HttpResponse : Option R := none
  deriving DecidableEq, Repr

/-- Source: `type DomainResponse struct`; `Data *Domain`. -/
structure DomainResponse (R : Type) extends Response R where
  Data : Option Domain := none
  deriving DecidableEq, Repr

/-- Source: `type DomainsResponse struct`; `Data []Domain`. -/
structure DomainsResponse (R : Type) extends Response R where
  Data : List Domain := []
  deriving DecidableEq, Repr

/-- Source: `type ZoneRecordResponse struct`; `Data *ZoneRecord`. -/
structure ZoneRecordResponse (R : Type) extends Response R where
  Data : Option ZoneRecord := none
  deriving DecidableEq, Repr

/-- Source: `type ZoneRecordsResponse struct`; `Data []ZoneRecord`. -/
structure ZoneRecordsResponse (R : Type) extends Response R where
  Data : List ZoneRecord := []
  deriving DecidableEq, Repr

/-- The HTTP verbs behind the four client methods. -/
inductive Verb where
  | GET | POST | PATCH | DELETE
  deriving DecidableEq, Repr

/-- The request bodies (`payload interface{}`) the operations pass: `nil`, a
`Domain` or a `ZoneRecord`. -/
inductive Payload where
  | nil
  | domain (d : Domain)
  | record (r : ZoneRecord)
  deriving DecidableEq, Repr

/-- The result destinations (`obj interface{}`) the operations pass: `nil`, or a
pointer to one of the four envelope types. -/
inductive DestKind where
  | nil | domain | domains | record | records
  deriving DecidableEq, Repr

/-- The pointee type of a destination (`Unit` for the nil destination). -/
def DestKind.Target (R : Type) : DestKind → Type
  | .nil => Unit
  | .domain => DomainResponse R
  | .domains => DomainsResponse R
  | .record => ZoneRecordResponse R
  | .records => ZoneRecordsResponse R

/-- What one call of a client method yields: the returned `(*http.Response, error)`
pair, the pointee of the destination after the call (the transport decodes the
response body into it), and the transport state after the call. -/
structure RoundTrip (R E α W : Type) where
  resp : Option R
  err : Option E
  obj : α
  world : W

/-- The collaborators of the binding, none of which is declared in the two source
files: the package functions `versioned` and `addURLQueryOptions` and the client
methods `get`, `post`, `patch`, `delete`. They are parameters of every operation.
`O` is `ListOptions`, `E` the error type, `W` the state of the transport. -/
structure Client (R E O W : Type) where
  versioned : String → String
  addURLQueryOptions : String → Option O → String × Option E
  get : (k : DestKind) → String → k.Target R → W → RoundTrip R E (k.Target R) W
  post : (k : DestKind) → String → Payload → k.Target R → W → RoundTrip R E (k.Target R) W
  patch : (k : DestKind) → String → Payload → k.Target R → W → RoundTrip R E (k.Target R) W
  delete : (k : DestKind) → String → Payload → k.Target R → W → RoundTrip R E (k.Target R) W

/-- The result of an operation: the Go pair `(*Envelope, error)` and the transport
state the operation leaves behind. -/
abbrev Outcome (T E W : Type) : Type := (Option T × Option E) × W

section Operations

variable {R E O W : Type}

/-! ## domains.go: operations -/

/-- Source: `DomainsService.ListDomains`. -/
def ListDomains (c : Client R E O W) (accountID : String) (options : Option O) (w : W) :
    Outcome (DomainsResponse R) E W :=
  let path := c.versioned (domainPath accountID .nil)
  let domainsResponse : DomainsResponse R := {}
  match c.addURLQueryOptions path options with
  | (_, some err) => ((none, some err), w)
  | (path, none) =>
    let rt := c.get .domains path domainsResponse w
    match rt.err with
    | some err => ((none, some err), rt.world)
    | none =>
      let domainsResponse : DomainsResponse R := rt.obj
      ((some { domainsResponse with HttpResponse := rt.resp }, none), rt.world)

/-- Source: `DomainsService.CreateDomain`. -/
def CreateDomain (c : Client R E O W) (accountID : String) (domainAttributes : Domain) (w : W) :
    Outcome (DomainResponse R) E W :=
  let path := c.versioned (domainPath accountID .nil)
  let domainResponse : DomainResponse R := {}
  let rt := c.post .domain path (.domain domainAttributes) domainResponse w
  match rt.err with
  | some err => ((none, some err), rt.world)
  | none =>
    let domainResponse : DomainResponse R := rt.obj
    ((some { domainResponse with HttpResponse := rt.resp }, none), rt.world)

/-- Source: `DomainsService.GetDomain`. -/
def GetDomain (c : Client R E O W) (accountID : String) (domain : Value) (w : W) :
    Outcome (DomainResponse R) E W :=
  let path := c.versioned (domainPath accountID domain)
  let domainResponse : DomainResponse R := {}
  let rt := c.get .domain path domainResponse w
  match rt.err with
  | some err => ((none, some err), rt.world)
  | none =>
    let domainResponse : DomainResponse R := rt.obj
    ((some { domainResponse with HttpResponse := rt.resp }, none), rt.world)

/-- Source: `DomainsService.DeleteDomain`: the client is called with a nil body
and a nil destination, so the local envelope is never written by the transport. -/
def DeleteDomain (c : Client R E O W) (accountID : String) (domain : Value) (w : W) :
    Outcome (DomainResponse R) E W :=
  let path := c.versioned (domainPath accountID domain)
  let domainResponse : DomainResponse R := {}
  let rt := c.delete .nil path .nil () w
  match rt.err with
  | some err => ((none, some err), rt.world)
  | none => ((some { domainResponse with HttpResponse := rt.resp }, none), rt.world)

/-- Source: `DomainsService.ResetDomainToken`. -/
def ResetDomainToken (c : Client R E O W) (accountID : String) (domain : Value) (w : W) :
    Outcome (DomainResponse R) E W :=
  let path := c.versioned (domainPath accountID domain ++ "/token")
  let domainResponse : DomainResponse R := {}
  let rt := c.post .domain path .nil domainResponse w
  match rt.err with
  | some err => ((none, some err), rt.world)
  | none =>
    let domainResponse : DomainResponse R := rt.obj
    ((some { domainResponse with HttpResponse := rt.resp }, none), rt.world)

/-! ## zones_records.go: operations -/

/-- Source: `ZonesService.ListRecords`. -/
def ListRecords (c : Client R E O W) (accountID : String) (zoneID : String)
    (options : Option O) (w : W) : Outcome (ZoneRecordsResponse R) E W :=
  let path := c.versioned (zoneRecordPath accountID zoneID 0)
  let recordsResponse : ZoneRecordsResponse R := {}
  match c.addURLQueryOptions path options with
  | (_, some err) => ((none, some err), w)
  | (path, none) =>
    let rt := c.get .records path recordsResponse w
    match rt.err with
    | some err => ((none, some err), rt.world)
    | none =>
      let recordsResponse : ZoneRecordsResponse R := rt.obj
      ((some { recordsResponse with HttpResponse := rt.resp }, none), rt.world)

/-- Source: `ZonesService.CreateRecord`. -/
def CreateRecord (c : Client R E O W) (accountID : String) (zoneID : String)
    (recordAttributes : ZoneRecord) (w : W) : Outcome (ZoneRecordResponse R) E W :=
  let path := c.versioned (zoneRecordPath accountID zoneID 0)
  let recordResponse : ZoneRecordResponse R := {}
  let rt := c.post .record path (.record recordAttributes) recordResponse w
  match rt.err with
  | some err => ((none, some err), rt.world)
  | none =>
    let recordResponse : ZoneRecordResponse R := rt.obj
    ((some { recordResponse with HttpResponse := rt.resp }, none), rt.world)

/-- Source: `ZonesService.GetRecord`. -/
def GetRecord (c : Client R E O W) (accountID : String) (zoneID : String)
    (recordID : Int) (w : W) : Outcome (ZoneRecordResponse R) E W :=
  let path := c.versioned (zoneRecordPath accountID zoneID recordID)
  let recordResponse : ZoneRecordResponse R := {}
  let rt := c.get .record path recordResponse w
  match rt.err with
  | some err => ((none, some err), rt.world)
  | none =>
    let recordResponse : ZoneRecordResponse R := rt.obj
    ((some { recordResponse with HttpResponse := rt.resp }, none), rt.world)

/-- Source: `ZonesService.UpdateRecord`. -/
def UpdateRecord (c : Client R E O W) (accountID : String) (zoneID : String)
    (recordID : Int) (recordAttributes : ZoneRecord) (w : W) :
    Outcome (ZoneRecordResponse R) E W :=
  let path := c.versioned (zoneRecordPath accountID zoneID recordID)
  let recordResponse : ZoneRecordResponse R := {}
  let rt := c.patch .record path (.record recordAttributes) recordResponse w
  match rt.err with
  | some err => ((none, some err), rt.world)
  | none =>
    let recordResponse : ZoneRecordResponse R := rt.obj
    ((some { recordResponse with HttpResponse := rt.resp }, none), rt.world)

/-- Source: `ZonesService.DeleteRecord`: nil body, nil destination. -/
def DeleteRecord (c : Client R E O W) (accountID : String) (zoneID : String)
    (recordID : Int) (w : W) : Outcome (ZoneRecordResponse R) E W :=
  let path := c.versioned (zoneRecordPath accountID zoneID recordID)
  let recordResponse : ZoneRecordResponse R := {}
  let rt := c.delete .nil path .nil () w
  match rt.err with
  | some err => ((none, some err), rt.world)
  | none => ((some { recordResponse with HttpResponse := rt.resp }, none), rt.world)

/-! ## Observing the calls an operation issues -/

/-- One call handed to the transport: the client method, the path, the request
body and the kind of destination. -/
structure Call where
  verb : Verb
  path : String
  body : Payload
  dest : DestKind
  deriving DecidableEq, Repr

/-- The same collaborators, with every client method call appended to a log kept
next to the transport state. The answers are those of `c`. -/
def Client.recorded (c : Client R E O W) : Client R E O (List Call × W) where
  versioned := c.versioned
  addURLQueryOptions := c.addURLQueryOptions
  get k path obj s :=
    let rt := c.get k path obj s.2
    { resp := rt.resp, err := rt.err, obj := rt.obj,
      world := (s.1 ++ [⟨.GET, path, .nil, k⟩], rt.world) }
  post k path body obj s :=
    let rt := c.post k path body obj s.2
    { resp := rt.resp, err := rt.err, obj := rt.obj,
      world := (s.1 ++ [⟨.POST, path, body, k⟩], rt.world) }
  patch k path body obj s :=
    let rt := c.patch k path body obj s.2
    { resp := rt.resp, err := rt.err, obj := rt.obj,
      world := (s.1 ++ [⟨.PATCH, path, body, k⟩], rt.world) }
  delete k path body obj s :=
    let rt := c.delete k path body obj s.2
    { resp := rt.resp, err := rt.err, obj := rt.obj,
      world := (s.1 ++ [⟨.DELETE, path, body, k⟩], rt.world) }

end Operations

/-! ## Request bodies on the wire -/

/-- The JSON values a field of `Domain` or `ZoneRecord` can serialize to, and
`null`. -/
inductive JSON where
  | null
  | bool (b : Bool)
  | num (n : Int)
  | str (s : String)
  deriving DecidableEq, Repr

/-- The "empty value" test behind `omitempty`: `false`, `0`, a nil pointer or
interface, and the empty string. -/
def JSON.isEmptyValue : JSON → Bool
  | .null => true
  | .bool b => !b
  | .num n => n == 0
  | .str s => s.length == 0

/-- One struct field as its tag describes it: the key, whether the tag carries
`omitempty`, and the field's value. -/
structure Field where
  key : String
  omitempty : Bool
  value : JSON
  deriving DecidableEq, Repr

/-- Source: the field tags of `type Domain struct`, in declaration order. -/
def Domain.fields (d : Domain) : List Field :=
  [ ⟨"id", true, .num d.ID⟩,
    ⟨"account_id", true, .num d.AccountID⟩,
    ⟨"registrant_id", true, .num d.RegistrantID⟩,
    ⟨"name", true, .str d.Name⟩,
    ⟨"unicode_name", true, .str d.UnicodeName⟩,
    ⟨"token", true, .str d.Token⟩,
    ⟨"state", true, .str d.State⟩,
    ⟨"auto_renew", true, .bool d.AutoRenew⟩,
    ⟨"private_whois", true, .bool d.PrivateWhois⟩,
    ⟨"expires_on", true, .str d.ExpiresOn⟩,
    ⟨"created_at", true, .str d.CreatedAt⟩,
    ⟨"updated_at", true, .str d.UpdatedAt⟩ ]

/-- Source: the field tags of `type ZoneRecord struct`, in declaration order;
the tag of `Name` is `json:"name"`, without `omitempty`. -/
def ZoneRecord.fields (r : ZoneRecord) : List Field :=
  [ ⟨"id", true, .num r.ID⟩,
    ⟨"zone_id", true, .str r.ZoneID⟩,
    ⟨"parent_id", true, .num r.ParentID⟩,
    ⟨"type", true, .str r.Type_⟩,
    ⟨"name", false, .str r.Name⟩,
    ⟨"content", true, .str r.Content⟩,
    ⟨"ttl", true, .num r.TTL⟩,
    ⟨"priority", true, .num r.Priority⟩,
    ⟨"system_record", true, .bool r.SystemRecord⟩,
    ⟨"created_at", true, .str r.CreatedAt⟩,
    ⟨"updated_at", true, .str r.UpdatedAt⟩ ]

/-- Modelled from the spec: the serializer of request bodies belongs to the
transport client, which is not among the source files. The spec fixes the wire
format as JSON with the fixed field names of the record types, the claim as
"determined by the type's field tags": a struct is written as the object of its
fields in declaration order, a field being left out exactly when its tag says
`omitempty` and its value is the empty value of its type. -/
def marshalFields (fs : List Field) : List (String × JSON) :=
  fs.filterMap fun f =>
    if f.omitempty && f.value.isEmptyValue then none else some (f.key, f.value)

/-- The JSON object sent for a request body; `none` when the body is nil. -/
def Payload.wire : Payload → Option (List (String × JSON))
  | .nil => none
  | .domain d => some (marshalFields d.fields)
  | .record r => some (marshalFields r.fields)

/-- The reading of "optional fields that are missing are omitted, no field is
sent as null, only fields that were set appear on the wire": every field left at
its zero value is absent from the object, no member is `null`, and every member
is a field whose value is not the zero value. -/
def OnlySetFieldsOnWire (fs : List Field) (wire : List (String × JSON)) : Prop :=
  (∀ f ∈ fs, f.value.isEmptyValue = true → f.key ∉ wire.map Prod.fst) ∧
  (∀ kv ∈ wire, kv.2 ≠ JSON.null) ∧
  (∀ kv ∈ wire, ∃ f ∈ fs, f.key = kv.1 ∧ f.value = kv.2 ∧ f.value.isEmptyValue = false)

/-! ## Sample collaborators -/

/-- Two domains a sample transport decodes for a list call. -/
def sampleDomains : List Domain :=
  [{ ID := 1, Name := "example.com" }, { ID := 2, Name := "example.org" }]

/-- Two zone records a sample transport decodes for a list call. -/
def sampleRecords : List ZoneRecord :=
  [{ ID := 64784, ZoneID := "example.com", Type_ := "NS" },
   { ID := 64779, ZoneID := "example.com", Type_ := "SOA" }]

/-- A record for the zone apex: type and content set, `Name` left at its zero
value. -/
def apexRecord : ZoneRecord := { Type_ := "A", Content := "1.2.3.4" }

/-- What the sample transport stores through each kind of destination. -/
def sampleDecode : (k : DestKind) → k.Target Nat → k.Target Nat
  | .nil, _ => ()
  | .domain, (r : DomainResponse Nat) =>
    ({ r with Data := some { ID := 1, Name := "example.com" } } : DomainResponse Nat)
  | .domains, (r : DomainsResponse Nat) =>
    ({ r with Data := sampleDomains } : DomainsResponse Nat)
  | .record, (r : ZoneRecordResponse Nat) =>
    ({ r with Data := some { ID := 64784, ZoneID := "example.com" } } : ZoneRecordResponse Nat)
  | .records, (r : ZoneRecordsResponse Nat) =>
    ({ r with Data := sampleRecords } : ZoneRecordsResponse Nat)

/-- A transport that always succeeds: the response is a status code, the state
counts round trips, paths are prefixed with `/v2`, and nil options leave the path
as it is. -/
def v2Client : Client Nat String Unit Nat where
  versioned p := "/v2" ++ p
  addURLQueryOptions p o :=
    match o with
    | none => (p, none)
    | some _ => (p ++ "?page=1", none)
  get k _ obj w := { resp := some 200, err := none, obj := sampleDecode k obj, world := w + 1 }
  post k _ _ obj w := { resp := some 201, err := none, obj := sampleDecode k obj, world := w + 1 }
  patch k _ _ obj w := { resp := some 200, err := none, obj := sampleDecode k obj, world := w + 1 }
  delete _ _ _ obj w := { resp := some 204, err := none, obj := obj, world := w + 1 }

/-- A transport whose every call fails with the error `"unreachable"`. -/
def downClient : Client Nat String Unit Nat where
  versioned p := "/v2" ++ p
  addURLQueryOptions p _ := (p, none)
  get _ _ obj w := { resp := none, err := some "unreachable", obj := obj, world := w + 1 }
  post _ _ _ obj w := { resp := none, err := some "unreachable", obj := obj, world := w + 1 }
  patch _ _ _ obj w := { resp := none, err := some "unreachable", obj := obj, world := w + 1 }
  delete _ _ _ obj w := { resp := none, err := some "unreachable", obj := obj, world := w + 1 }

/-- Collaborators whose query-option encoder fails; the transport itself would
succeed. -/
def badQueryClient : Client Nat String Unit Nat :=
  { v2Client with addURLQueryOptions := fun p _ => (p, some "bad options") }

/-- Whether a path ends in an empty trailing segment, that is in `/`. -/
def endsWithSlash (path : String) : Bool :=
  path.data.getLast? == some '/'

/-! ## Path construction -/

theorem sprintfD_eq_toString (n : Int) : sprintfD n = toString n := by
  cases n with
  | ofNat m =>
    have h : ¬ (Int.ofNat m < 0) := by simp
    simp only [sprintfD, h, if_false]
    rfl
  | negSucc m =>
    have h : Int.negSucc m < 0 := Int.negSucc_lt_zero m
    simp only [sprintfD, h, if_true]
    rfl

theorem sprintfD_of_nonneg (n : Int) (h : 0 ≤ n) : sprintfD n = Nat.repr n.toNat := by
  have h' : ¬ n < 0 := not_lt.mpr h
  simp only [sprintfD, h', if_false]
  congr 1
  omega

theorem domainPath_nil (accountID : String) :
    domainPath accountID .nil = "/" ++ accountID ++ "/domains" := rfl

theorem domainPath_of_ne_nil (accountID : String) (v : Value) (h : v ≠ .nil) :
    domainPath accountID v = "/" ++ accountID ++ "/domains/" ++ domainIdentifier v := by
  cases v <;> first | exact absurd rfl h | rfl

theorem zoneRecordPath_zero (accountID zoneID : String) :
    zoneRecordPath accountID zoneID 0 = "/" ++ accountID ++ "/zones/" ++ zoneID ++ "/records" := rfl

theorem zoneRecordPath_of_ne_zero (accountID zoneID : String) (r : Int) (h : r ≠ 0) :
    zoneRecordPath accountID zoneID r
      = "/" ++ accountID ++ "/zones/" ++ zoneID ++ "/records/" ++ sprintfD r := by
  have e : ("/records/" : String) = "/records" ++ "/" := by decide
  simp only [zoneRecordPath, bne_iff_ne, ne_eq, h, not_false_eq_true, if_true]
  rw [e]
  simp only [String.append_assoc]

theorem append_ne_append_of_ne (a b c : String) (h : b ≠ c) : a ++ b ≠ a ++ c := by
  intro e
  apply h
  have := congrArg String.data e
  simp only [String.data_append] at this
  exact String.ext (List.append_cancel_left this)

theorem endsWithSlash_append_slash (a : String) : endsWithSlash (a ++ "/domains/") = true := by
  have e : ("/domains/" : String).data = "/domains".data ++ ['/'] := by decide
  simp [endsWithSlash, String.data_append, e]

/-! ## The operations: results and issued calls -/

section OperationLemmas

variable {R E O W : Type}

theorem CreateDomain_err (c : Client R E O W) (accountID : String) (domainAttributes : Domain) (w : W) (e : E)
    (h : (c.post .domain (c.versioned (domainPath accountID .nil)) (.domain domainAttributes) ({} : DomainResponse R) w).err = some e) :
    (CreateDomain c accountID domainAttributes w).1 = (none, some e) := by
  simp only [CreateDomain, h]

theorem CreateDomain_ok (c : Client R E O W) (accountID : String) (domainAttributes : Domain) (w : W)
    (h : (c.post .domain (c.versioned (domainPath accountID .nil)) (.domain domainAttributes) ({} : DomainResponse R) w).err = none) :
    (CreateDomain c accountID domainAttributes w).1
      = (some { HttpResponse := (c.post .domain (c.versioned (domainPath accountID .nil)) (.domain domainAttributes) ({} : DomainResponse R) w).resp,
                Data := DomainResponse.Data (c.post .domain (c.versioned (domainPath accountID .nil)) (.domain domainAttributes) ({} : DomainResponse R) w).obj }, none) := by
  simp only [CreateDomain, h]

theorem CreateDomain_calls (c : Client R E O W) (accountID : String) (domainAttributes : Domain) (log : List Call) (w : W) :
    (CreateDomain c.recorded accountID domainAttributes (log, w)).2.1
      = log ++ [⟨.POST, c.versioned (domainPath accountID .nil), .domain domainAttributes, .domain⟩] := by
  simp only [CreateDomain, Client.recorded]
  split <;> rfl

theorem CreateDomain_recorded (c : Client R E O W) (accountID : String) (domainAttributes : Domain) (log : List Call) (w : W) :
    (CreateDomain c.recorded accountID domainAttributes (log, w)).1 = (CreateDomain c accountID domainAttributes w).1 ∧
    (CreateDomain c.recorded accountID domainAttributes (log, w)).2.2 = (CreateDomain c accountID domainAttributes w).2 := by
  simp only [CreateDomain, Client.recorded]
  split <;> simp_all

theorem GetDomain_err (c : Client R E O W) (accountID : String) (domain : Value) (w : W) (e : E)
    (h : (c.get .domain (c.versioned (domainPath accountID domain)) ({} : DomainResponse R) w).err = some e) :
    (GetDomain c accountID domain w).1 = (none, some e) := by
  simp only [GetDomain, h]

theorem GetDomain_ok (c : Client R E O W) (accountID : String) (domain : Value) (w : W)
    (h : (c.get .domain (c.versioned (domainPath accountID domain)) ({} : DomainResponse R) w).err = none) :
    (GetDomain c accountID domain w).1
      = (some { HttpResponse := (c.get .domain (c.versioned (domainPath accountID domain)) ({} : DomainResponse R) w).resp,
                Data := DomainResponse.Data (c.get .domain (c.versioned (domainPath accountID domain)) ({} : DomainResponse R) w).obj }, none) := by
  simp only [GetDomain, h]

theorem GetDomain_calls (c : Client R E O W) (accountID : String) (domain : Value) (log : List Call) (w : W) :
    (GetDomain c.recorded accountID domain (log, w)).2.1
      = log ++ [⟨.GET, c.versioned (domainPath accountID domain), .nil, .domain⟩] := by
  simp only [GetDomain, Client.recorded]
  split <;> rfl

theorem GetDomain_recorded (c : Client R E O W) (accountID : String) (domain : Value) (log : List Call) (w : W) :
    (GetDomain c.recorded accountID domain (log, w)).1 = (GetDomain c accountID domain w).1 ∧
    (GetDomain c.recorded accountID domain (log, w)).2.2 = (GetDomain c accountID domain w).2 := by
  simp only [GetDomain, Client.recorded]
  split <;> simp_all

theorem DeleteDomain_err (c : Client R E O W) (accountID : String) (domain : Value) (w : W) (e : E)
    (h : (c.delete .nil (c.versioned (domainPath accountID domain)) (.nil) () w).err = some e) :
    (DeleteDomain c accountID domain w).1 = (none, some e) := by
  simp only [DeleteDomain, h]

theorem DeleteDomain_ok (c : Client R E O W) (accountID : String) (domain : Value) (w : W)
    (h : (c.delete .nil (c.versioned (domainPath accountID domain)) (.nil) () w).err = none) :
    (DeleteDomain c accountID domain w).1
      = (some { HttpResponse := (c.delete .nil (c.versioned (domainPath accountID domain)) (.nil) () w).resp,
                Data := none }, none) := by
  simp only [DeleteDomain, h]

theorem DeleteDomain_calls (c : Client R E O W) (accountID : String) (domain : Value) (log : List Call) (w : W) :
    (DeleteDomain c.recorded accountID domain (log, w)).2.1
      = log ++ [⟨.DELETE, c.versioned (domainPath accountID domain), .nil, .nil⟩] := by
  simp only [DeleteDomain, Client.recorded]
  split <;> rfl

theorem DeleteDomain_recorded (c : Client R E O W) (accountID : String) (domain : Value) (log : List Call) (w : W) :
    (DeleteDomain c.recorded accountID domain (log, w)).1 = (DeleteDomain c accountID domain w).1 ∧
    (DeleteDomain c.recorded accountID domain (log, w)).2.2 = (DeleteDomain c accountID domain w).2 := by
  simp only [DeleteDomain, Client.recorded]
  split <;> simp_all

theorem ResetDomainToken_err (c : Client R E O W) (accountID : String) (domain : Value) (w : W) (e : E)
    (h : (c.post .domain (c.versioned (domainPath accountID domain ++ "/token")) (.nil) ({} : DomainResponse R) w).err = some e) :
    (ResetDomainToken c accountID domain w).1 = (none, some e) := by
  simp only [ResetDomainToken, h]

theorem ResetDomainToken_ok (c : Client R E O W) (accountID : String) (domain : Value) (w : W)
    (h : (c.post .domain (c.versioned (domainPath accountID domain ++ "/token")) (.nil) ({} : DomainResponse R) w).err = none) :
    (ResetDomainToken c accountID domain w).1
      = (some { HttpResponse := (c.post .domain (c.versioned (domainPath accountID domain ++ "/token")) (.nil) ({} : DomainResponse R) w).resp,
                Data := DomainResponse.Data (c.post .domain (c.versioned (domainPath accountID domain ++ "/token")) (.nil) ({} : DomainResponse R) w).obj }, none) := by
  simp only [ResetDomainToken, h]

theorem ResetDomainToken_calls (c : Client R E O W) (accountID : String) (domain : Value) (log : List Call) (w : W) :
    (ResetDomainToken c.recorded accountID domain (log, w)).2.1
      = log ++ [⟨.POST, c.versioned (domainPath accountID domain ++ "/token"), .nil, .domain⟩] := by
  simp only [ResetDomainToken, Client.recorded]
  split <;> rfl

theorem ResetDomainToken_recorded (c : Client R E O W) (accountID : String) (domain : Value) (log : List Call) (w : W) :
    (ResetDomainToken c.recorded accountID domain (log, w)).1 = (ResetDomainToken c accountID domain w).1 ∧
    (ResetDomainToken c.recorded accountID domain (log, w)).2.2 = (ResetDomainToken c accountID domain w).2 := by
  simp only [ResetDomainToken, Client.recorded]
  split <;> simp_all

theorem CreateRecord_err (c : Client R E O W) (accountID zoneID : String) (recordAttributes : ZoneRecord) (w : W) (e : E)
    (h : (c.post .record (c.versioned (zoneRecordPath accountID zoneID 0)) (.record recordAttributes) ({} : ZoneRecordResponse R) w).err = some e) :
    (CreateRecord c accountID zoneID recordAttributes w).1 = (none, some e) := by
  simp only [CreateRecord, h]

theorem CreateRecord_ok (c : Client R E O W) (accountID zoneID : String) (recordAttributes : ZoneRecord) (w : W)
    (h : (c.post .record (c.versioned (zoneRecordPath accountID zoneID 0)) (.record recordAttributes) ({} : ZoneRecordResponse R) w).err = none) :
    (CreateRecord c accountID zoneID recordAttributes w).1
      = (some { HttpResponse := (c.post .record (c.versioned (zoneRecordPath accountID zoneID 0)) (.record recordAttributes) ({} : ZoneRecordResponse R) w).resp,
                Data := ZoneRecordResponse.Data (c.post .record (c.versioned (zoneRecordPath accountID zoneID 0)) (.record recordAttributes) ({} : ZoneRecordResponse R) w).obj }, none) := by
  simp only [CreateRecord, h]

theorem CreateRecord_calls (c : Client R E O W) (accountID zoneID : String) (recordAttributes : ZoneRecord) (log : List Call) (w : W) :
    (CreateRecord c.recorded accountID zoneID recordAttributes (log, w)).2.1
      = log ++ [⟨.POST, c.versioned (zoneRecordPath accountID zoneID 0), .record recordAttributes, .record⟩] := by
  simp only [CreateRecord, Client.recorded]
  split <;> rfl

theorem CreateRecord_recorded (c : Client R E O W) (accountID zoneID : String) (recordAttributes : ZoneRecord) (log : List Call) (w : W) :
    (CreateRecord c.recorded accountID zoneID recordAttributes (log, w)).1 = (CreateRecord c accountID zoneID recordAttributes w).1 ∧
    (CreateRecord c.recorded accountID zoneID recordAttributes (log, w)).2.2 = (CreateRecord c accountID zoneID recordAttributes w).2 := by
  simp only [CreateRecord, Client.recorded]
  split <;> simp_all

theorem GetRecord_err (c : Client R E O W) (accountID zoneID : String) (recordID : Int) (w : W) (e : E)
    (h : (c.get .record (c.versioned (zoneRecordPath accountID zoneID recordID)) ({} : ZoneRecordResponse R) w).err = some e) :
    (GetRecord c accountID zoneID recordID w).1 = (none, some e) := by
  simp only [GetRecord, h]

theorem GetRecord_ok (c : Client R E O W) (accountID zoneID : String) (recordID : Int) (w : W)
    (h : (c.get .record (c.versioned (zoneRecordPath accountID zoneID recordID)) ({} : ZoneRecordResponse R) w).err = none) :
    (GetRecord c accountID zoneID recordID w).1
      = (some { HttpResponse := (c.get .record (c.versioned (zoneRecordPath accountID zoneID recordID)) ({} : ZoneRecordResponse R) w).resp,
                Data := ZoneRecordResponse.Data (c.get .record (c.versioned (zoneRecordPath accountID zoneID recordID)) ({} : ZoneRecordResponse R) w).obj }, none) := by
  simp only [GetRecord, h]

theorem GetRecord_calls (c : Client R E O W) (accountID zoneID : String) (recordID : Int) (log : List Call) (w : W) :
    (GetRecord c.recorded accountID zoneID recordID (log, w)).2.1
      = log ++ [⟨.GET, c.versioned (zoneRecordPath accountID zoneID recordID), .nil, .record⟩] := by
  simp only [GetRecord, Client.recorded]
  split <;> rfl

theorem GetRecord_recorded (c : Client R E O W) (accountID zoneID : String) (recordID : Int) (log : List Call) (w : W) :
    (GetRecord c.recorded accountID zoneID recordID (log, w)).1 = (GetRecord c accountID zoneID recordID w).1 ∧
    (GetRecord c.recorded accountID zoneID recordID (log, w)).2.2 = (GetRecord c accountID zoneID recordID w).2 := by
  simp only [GetRecord, Client.recorded]
  split <;> simp_all

theorem UpdateRecord_err (c : Client R E O W) (accountID zoneID : String) (recordID : Int) (recordAttributes : ZoneRecord) (w : W) (e : E)
    (h : (c.patch .record (c.versioned (zoneRecordPath accountID zoneID recordID)) (.record recordAttributes) ({} : ZoneRecordResponse R) w).err = some e) :
    (UpdateRecord c accountID zoneID recordID recordAttributes w).1 = (none, some e) := by
  simp only [UpdateRecord, h]

theorem UpdateRecord_ok (c : Client R E O W) (accountID zoneID : String) (recordID : Int) (recordAttributes : ZoneRecord) (w : W)
    (h : (c.patch .record (c.versioned (zoneRecordPath accountID zoneID recordID)) (.record recordAttributes) ({} : ZoneRecordResponse R) w).err = none) :
    (UpdateRecord c accountID zoneID recordID recordAttributes w).1
      = (some { HttpResponse := (c.patch .record (c.versioned (zoneRecordPath accountID zoneID recordID)) (.record recordAttributes) ({} : ZoneRecordResponse R) w).resp,
                Data := ZoneRecordResponse.Data (c.patch .record (c.versioned (zoneRecordPath accountID zoneID recordID)) (.record recordAttributes) ({} : ZoneRecordResponse R) w).obj }, none) := by
  simp only [UpdateRecord, h]

theorem UpdateRecord_calls (c : Client R E O W) (accountID zoneID : String) (recordID : Int) (recordAttributes : ZoneRecord) (log : List Call) (w : W) :
    (UpdateRecord c.recorded accountID zoneID recordID recordAttributes (log, w)).2.1
      = log ++ [⟨.PATCH, c.versioned (zoneRecordPath accountID zoneID recordID), .record recordAttributes, .record⟩] := by
  simp only [UpdateRecord, Client.recorded]
  split <;> rfl

theorem UpdateRecord_recorded (c : Client R E O W) (accountID zoneID : String) (recordID : Int) (recordAttributes : ZoneRecord) (log : List Call) (w : W) :
    (UpdateRecord c.recorded accountID zoneID recordID recordAttributes (log, w)).1 = (UpdateRecord c accountID zoneID recordID recordAttributes w).1 ∧
    (UpdateRecord c.recorded accountID zoneID recordID recordAttributes (log, w)).2.2 = (UpdateRecord c accountID zoneID recordID recordAttributes w).2 := by
  simp only [UpdateRecord, Client.recorded]
  split <;> simp_all

theorem DeleteRecord_err (c : Client R E O W) (accountID zoneID : String) (recordID : Int) (w : W) (e : E)
    (h : (c.delete .nil (c.versioned (zoneRecordPath accountID zoneID recordID)) (.nil) () w).err = some e) :
    (DeleteRecord c accountID zoneID recordID w).1 = (none, some e) := by
  simp only [DeleteRecord, h]

theorem DeleteRecord_ok (c : Client R E O W) (accountID zoneID : String) (recordID : Int) (w : W)
    (h : (c.delete .nil (c.versioned (zoneRecordPath accountID zoneID recordID)) (.nil) () w).err = none) :
    (DeleteRecord c accountID zoneID recordID w).1
      = (some { HttpResponse := (c.delete .nil (c.versioned (zoneRecordPath accountID zoneID recordID)) (.nil) () w).resp,
                Data := none }, none) := by
  simp only [DeleteRecord, h]

theorem DeleteRecord_calls (c : Client R E O W) (accountID zoneID : String) (recordID : Int) (log : List Call) (w : W) :
    (DeleteRecord c.recorded accountID zoneID recordID (log, w)).2.1
      = log ++ [⟨.DELETE, c.versioned (zoneRecordPath accountID zoneID recordID), .nil, .nil⟩] := by
  simp only [DeleteRecord, Client.recorded]
  split <;> rfl

theorem DeleteRecord_recorded (c : Client R E O W) (accountID zoneID : String) (recordID : Int) (log : List Call) (w : W) :
    (DeleteRecord c.recorded accountID zoneID recordID (log, w)).1 = (DeleteRecord c accountID zoneID recordID w).1 ∧
    (DeleteRecord c.recorded accountID zoneID recordID (log, w)).2.2 = (DeleteRecord c accountID zoneID recordID w).2 := by
  simp only [DeleteRecord, Client.recorded]
  split <;> simp_all

theorem ListDomains_query_err (c : Client R E O W) (accountID : String) (options : Option O) (w : W) (e : E)
    (h : (c.addURLQueryOptions (c.versioned (domainPath accountID .nil)) options).2 = some e) :
    (ListDomains c accountID options w).1 = (none, some e) := by
  have hq : c.addURLQueryOptions (c.versioned (domainPath accountID .nil)) options
      = ((c.addURLQueryOptions (c.versioned (domainPath accountID .nil)) options).1, some e) := Prod.ext rfl h
  simp only [ListDomains]
  rw [hq]

theorem ListDomains_err (c : Client R E O W) (accountID : String) (options : Option O) (w : W) (e : E) (p : String)
    (hq : c.addURLQueryOptions (c.versioned (domainPath accountID .nil)) options = (p, none))
    (h : (c.get .domains p ({} : DomainsResponse R) w).err = some e) :
    (ListDomains c accountID options w).1 = (none, some e) := by
  simp only [ListDomains, hq, h]

theorem ListDomains_ok (c : Client R E O W) (accountID : String) (options : Option O) (w : W) (p : String)
    (hq : c.addURLQueryOptions (c.versioned (domainPath accountID .nil)) options = (p, none))
    (h : (c.get .domains p ({} : DomainsResponse R) w).err = none) :
    (ListDomains c accountID options w).1
      = (some { HttpResponse := (c.get .domains p ({} : DomainsResponse R) w).resp,
                Data := DomainsResponse.Data (c.get .domains p ({} : DomainsResponse R) w).obj }, none) := by
  simp only [ListDomains, hq, h]

theorem ListDomains_calls (c : Client R E O W) (accountID : String) (options : Option O) (log : List Call) (w : W) (p : String)
    (hq : c.addURLQueryOptions (c.versioned (domainPath accountID .nil)) options = (p, none)) :
    (ListDomains c.recorded accountID options (log, w)).2.1
      = log ++ [⟨.GET, p, .nil, .domains⟩] := by
  have hq' : c.recorded.addURLQueryOptions (c.recorded.versioned ((domainPath accountID .nil))) options
      = (p, none) := hq
  simp only [ListDomains, hq']
  simp only [Client.recorded]
  split <;> rfl

theorem ListDomains_calls_query_err (c : Client R E O W) (accountID : String) (options : Option O) (log : List Call) (w : W) (e : E)
    (h : (c.addURLQueryOptions (c.versioned (domainPath accountID .nil)) options).2 = some e) :
    (ListDomains c.recorded accountID options (log, w)).2.1 = log := by
  have hq : c.recorded.addURLQueryOptions (c.recorded.versioned ((domainPath accountID .nil))) options
      = ((c.addURLQueryOptions (c.versioned (domainPath accountID .nil)) options).1, some e) := Prod.ext rfl h
  simp only [ListDomains]
  rw [hq]

theorem ListDomains_recorded (c : Client R E O W) (accountID : String) (options : Option O) (log : List Call) (w : W) :
    (ListDomains c.recorded accountID options (log, w)).1 = (ListDomains c accountID options w).1 ∧
    (ListDomains c.recorded accountID options (log, w)).2.2 = (ListDomains c accountID options w).2 := by
  simp only [ListDomains, Client.recorded]
  split
  · simp
  · split <;> simp_all

theorem ListRecords_query_err (c : Client R E O W) (accountID zoneID : String) (options : Option O) (w : W) (e : E)
    (h : (c.addURLQueryOptions (c.versioned (zoneRecordPath accountID zoneID 0)) options).2 = some e) :
    (ListRecords c accountID zoneID options w).1 = (none, some e) := by
  have hq : c.addURLQueryOptions (c.versioned (zoneRecordPath accountID zoneID 0)) options
      = ((c.addURLQueryOptions (c.versioned (zoneRecordPath accountID zoneID 0)) options).1, some e) := Prod.ext rfl h
  simp only [ListRecords]
  rw [hq]

theorem ListRecords_err (c : Client R E O W) (accountID zoneID : String) (options : Option O) (w : W) (e : E) (p : String)
    (hq : c.addURLQueryOptions (c.versioned (zoneRecordPath accountID zoneID 0)) options = (p, none))
    (h : (c.get .records p ({} : ZoneRecordsResponse R) w).err = some e) :
    (ListRecords c accountID zoneID options w).1 = (none, some e) := by
  simp only [ListRecords, hq, h]

theorem ListRecords_ok (c : Client R E O W) (accountID zoneID : String) (options : Option O) (w : W) (p : String)
    (hq : c.addURLQueryOptions (c.versioned (zoneRecordPath accountID zoneID 0)) options = (p, none))
    (h : (c.get .records p ({} : ZoneRecordsResponse R) w).err = none) :
    (ListRecords c accountID zoneID options w).1
      = (some { HttpResponse := (c.get .records p ({} : ZoneRecordsResponse R) w).resp,
                Data := ZoneRecordsResponse.Data (c.get .records p ({} : ZoneRecordsResponse R) w).obj }, none) := by
  simp only [ListRecords, hq, h]

theorem ListRecords_calls (c : Client R E O W) (accountID zoneID : String) (options : Option O) (log : List Call) (w : W) (p : String)
    (hq : c.addURLQueryOptions (c.versioned (zoneRecordPath accountID zoneID 0)) options = (p, none)) :
    (ListRecords c.recorded accountID zoneID options (log, w)).2.1
      = log ++ [⟨.GET, p, .nil, .records⟩] := by
  have hq' : c.recorded.addURLQueryOptions (c.recorded.versioned ((zoneRecordPath accountID zoneID 0))) options
      = (p, none) := hq
  simp only [ListRecords, hq']
  simp only [Client.recorded]
  split <;> rfl

theorem ListRecords_calls_query_err (c : Client R E O W) (accountID zoneID : String) (options : Option O) (log : List Call) (w : W) (e : E)
    (h : (c.addURLQueryOptions (c.versioned (zoneRecordPath accountID zoneID 0)) options).2 = some e) :
    (ListRecords c.recorded accountID zoneID options (log, w)).2.1 = log := by
  have hq : c.recorded.addURLQueryOptions (c.recorded.versioned ((zoneRecordPath accountID zoneID 0))) options
      = ((c.addURLQueryOptions (c.versioned (zoneRecordPath accountID zoneID 0)) options).1, some e) := Prod.ext rfl h
  simp only [ListRecords]
  rw [hq]

theorem ListRecords_recorded (c : Client R E O W) (accountID zoneID : String) (options : Option O) (log : List Call) (w : W) :
    (ListRecords c.recorded accountID zoneID options (log, w)).1 = (ListRecords c accountID zoneID options w).1 ∧
    (ListRecords c.recorded accountID zoneID options (log, w)).2.2 = (ListRecords c accountID zoneID options w).2 := by
  simp only [ListRecords, Client.recorded]
  split
  · simp
  · split <;> simp_all

end OperationLemmas

/-! ## Claims on path construction -/

/-- C1: with an absent identifier the path is exactly the collection path:
`domainPath accountID nil` is `/accountID/domains`, and `zoneRecordPath` with the
record ID `0` is `/accountID/zones/zoneID/records`, with no `/0` segment. -/
theorem absent_identifier_gives_collection_path (accountID zoneID : String) :
    domainPath accountID .nil = "/" ++ accountID ++ "/domains" ∧
    zoneRecordPath accountID zoneID 0
      = "/" ++ accountID ++ "/zones/" ++ zoneID ++ "/records" ∧
    zoneRecordPath accountID zoneID 0
      ≠ "/" ++ accountID ++ "/zones/" ++ zoneID ++ "/records" ++ "/0" := by
  refine ⟨rfl, rfl, ?_⟩
  rw [zoneRecordPath_zero]
  intro e
  have := congrArg String.length e
  simp only [String.length_append] at this
  have h0 : ("/0" : String).length = 2 := by decide
  omega

/-- C2: with a present identifier the item path is the collection path, `/`, and
the identifier in its string form: a string `s` itself, the decimal digits of a
positive integer `n`, the decimal digits of a positive record ID `r`. -/
theorem present_identifier_gives_item_path (accountID zoneID : String) :
    (∀ s : String, domainPath accountID (.str s) = "/" ++ accountID ++ "/domains/" ++ s) ∧
    (∀ n : Int, 0 < n →
      domainPath accountID (.int n) = "/" ++ accountID ++ "/domains/" ++ Nat.repr n.toNat) ∧
    (∀ r : Int, 0 < r →
      zoneRecordPath accountID zoneID r
        = "/" ++ accountID ++ "/zones/" ++ zoneID ++ "/records/" ++ Nat.repr r.toNat) := by
  refine ⟨fun s => rfl, fun n hn => ?_, fun r hr => ?_⟩
  · rw [domainPath_of_ne_nil accountID (.int n) (by simp)]
    show _ ++ sprintfD n = _
    rw [sprintfD_of_nonneg n hn.le]
  · rw [zoneRecordPath_of_ne_zero accountID zoneID r hr.ne', sprintfD_of_nonneg r hr.le]

/-- Witness of C2 at account `1010`, zone `example.com`, domain ID 123 and record
ID 5. -/
theorem present_identifier_gives_item_path_witness :
    domainPath "1010" (.str "example.com") = "/1010/domains/example.com" ∧
    ((0 : Int) < 123 ∧ domainPath "1010" (.int 123) = "/1010/domains/123") ∧
    ((0 : Int) < 5 ∧
      zoneRecordPath "1010" "example.com" 5 = "/1010/zones/example.com/records/5") :=
  ⟨(present_identifier_gives_item_path "1010" "example.com").1 "example.com",
   ⟨by decide, (present_identifier_gives_item_path "1010" "example.com").2.1 123 (by decide)⟩,
   ⟨by decide, (present_identifier_gives_item_path "1010" "example.com").2.2 5 (by decide)⟩⟩

/-- C7: `domainIdentifier` returns a string as it is, an `int` as its decimal
rendering, and the empty string for every value that is neither a string nor an
`int`. -/
theorem domainIdentifier_normalizes :
    (∀ s : String, domainIdentifier (.str s) = s) ∧
    (∀ n : Int, domainIdentifier (.int n) = toString n) ∧
    (∀ v : Value, (∀ s, v ≠ .str s) → (∀ n, v ≠ .int n) → domainIdentifier v = "") := by
  refine ⟨fun s => rfl, fun n => sprintfD_eq_toString n, fun v hs hn => ?_⟩
  cases v with
  | str s => exact absurd rfl (hs s)
  | int n => exact absurd rfl (hn n)
  | nil => rfl
  | int64 n => rfl
  | bool b => rfl

/-- Witness of C7: the string `example.com`, the ints 123 and -7, and the `int64`
value 123, which is neither a string nor an `int`. -/
theorem domainIdentifier_normalizes_witness :
    domainIdentifier (.str "example.com") = "example.com" ∧
    domainIdentifier (.int 123) = "123" ∧
    domainIdentifier (.int (-7)) = "-7" ∧
    ((∀ s, Value.int64 123 ≠ .str s) ∧ (∀ n, Value.int64 123 ≠ .int n) ∧
      domainIdentifier (.int64 123) = "") :=
  ⟨domainIdentifier_normalizes.1 "example.com",
   domainIdentifier_normalizes.2.1 123,
   domainIdentifier_normalizes.2.1 (-7),
   fun _ h => Value.noConfusion h, fun _ h => Value.noConfusion h,
   domainIdentifier_normalizes.2.2 (.int64 123)
     (fun _ h => Value.noConfusion h) (fun _ h => Value.noConfusion h)⟩

/-- C8 fails as stated: the empty string is a non-nil identifier that normalizes
to the empty string, yet `domainPath "1010" ""` is `/1010/domains/`, which is not
the collection path and ends in an empty trailing segment. -/
theorem empty_identifier_is_a_segment :
    Value.str "" ≠ Value.nil ∧ domainIdentifier (.str "") = "" ∧
    domainPath "1010" (.str "") = "/1010/domains/" ∧
    domainPath "1010" (.str "") ≠ "/" ++ "1010" ++ "/domains" ∧
    endsWithSlash (domainPath "1010" (.str "")) = true := by
  decide

/-- C8 as amended: only the nil identifier yields the collection path. For a
non-nil identifier that normalizes to the empty string, `domainPath` is the
collection path followed by `/`, an empty trailing segment. -/
theorem empty_identifier_path (accountID : String) (v : Value)
    (hv : v ≠ .nil) (he : domainIdentifier v = "") :
    domainPath accountID v = "/" ++ accountID ++ "/domains" ++ "/" ∧
    endsWithSlash (domainPath accountID v) = true ∧
    domainPath accountID v ≠ domainPath accountID .nil := by
  have e : domainPath accountID v = "/" ++ accountID ++ "/domains/" := by
    rw [domainPath_of_ne_nil accountID v hv, he]
    simp
  have e2 : ("/domains/" : String) = "/domains" ++ "/" := by decide
  refine ⟨?_, ?_, ?_⟩
  · rw [e, e2, String.append_assoc ("/" ++ accountID)]
  · rw [e]
    exact endsWithSlash_append_slash _
  · rw [e, domainPath_nil]
    exact append_ne_append_of_ne _ _ _ (by decide)

/-- Witness of the amended C8 at a boolean identifier, which is neither a string
nor an `int`. -/
theorem empty_identifier_path_witness :
    Value.bool true ≠ Value.nil ∧ domainIdentifier (.bool true) = "" ∧
    domainPath "1010" (.bool true) = "/1010/domains/" ∧
    endsWithSlash (domainPath "1010" (.bool true)) = true ∧
    domainPath "1010" (.bool true) ≠ domainPath "1010" .nil :=
  ⟨by decide, rfl,
   (empty_identifier_path "1010" (.bool true) (by decide) rfl).1,
   (empty_identifier_path "1010" (.bool true) (by decide) rfl).2.1,
   (empty_identifier_path "1010" (.bool true) (by decide) rfl).2.2⟩

/-! ## Claims on results -/

section ResultClaims

variable {R E O W : Type}

/-- C3: when the query-option encoding (for the two list operations) or the
transport call of an operation returns an error `e`, the operation returns no
envelope together with exactly `e`. -/
theorem failure_returns_no_envelope_and_the_error (c : Client R E O W)
    (accountID zoneID : String) (domain : Value) (recordID : Int) (options : Option O)
    (domainAttributes : Domain) (recordAttributes : ZoneRecord) (w : W) (e : E) :
    ((c.addURLQueryOptions (c.versioned (domainPath accountID .nil)) options).2 = some e →
      (ListDomains c accountID options w).1 = (none, some e)) ∧
    ((c.addURLQueryOptions (c.versioned (zoneRecordPath accountID zoneID 0)) options).2 = some e →
      (ListRecords c accountID zoneID options w).1 = (none, some e)) ∧
    (∀ p, c.addURLQueryOptions (c.versioned (domainPath accountID .nil)) options = (p, none) →
      (c.get .domains p ({} : DomainsResponse R) w).err = some e →
      (ListDomains c accountID options w).1 = (none, some e)) ∧
    ((c.post .domain (c.versioned (domainPath accountID .nil)) (.domain domainAttributes)
        ({} : DomainResponse R) w).err = some e →
      (CreateDomain c accountID domainAttributes w).1 = (none, some e)) ∧
    ((c.get .domain (c.versioned (domainPath accountID domain))
        ({} : DomainResponse R) w).err = some e →
      (GetDomain c accountID domain w).1 = (none, some e)) ∧
    ((c.delete .nil (c.versioned (domainPath accountID domain)) .nil () w).err = some e →
      (DeleteDomain c accountID domain w).1 = (none, some e)) ∧
    ((c.post .domain (c.versioned (domainPath accountID domain ++ "/token")) .nil
        ({} : DomainResponse R) w).err = some e →
      (ResetDomainToken c accountID domain w).1 = (none, some e)) ∧
    (∀ p, c.addURLQueryOptions (c.versioned (zoneRecordPath accountID zoneID 0)) options
        = (p, none) →
      (c.get .records p ({} : ZoneRecordsResponse R) w).err = some e →
      (ListRecords c accountID zoneID options w).1 = (none, some e)) ∧
    ((c.post .record (c.versioned (zoneRecordPath accountID zoneID 0)) (.record recordAttributes)
        ({} : ZoneRecordResponse R) w).err = some e →
      (CreateRecord c accountID zoneID recordAttributes w).1 = (none, some e)) ∧
    ((c.get .record (c.versioned (zoneRecordPath accountID zoneID recordID))
        ({} : ZoneRecordResponse R) w).err = some e →
      (GetRecord c accountID zoneID recordID w).1 = (none, some e)) ∧
    ((c.patch .record (c.versioned (zoneRecordPath accountID zoneID recordID))
        (.record recordAttributes) ({} : ZoneRecordResponse R) w).err = some e →
      (UpdateRecord c accountID zoneID recordID recordAttributes w).1 = (none, some e)) ∧
    ((c.delete .nil (c.versioned (zoneRecordPath accountID zoneID recordID)) .nil () w).err
        = some e →
      (DeleteRecord c accountID zoneID recordID w).1 = (none, some e)) :=
  ⟨ListDomains_query_err c accountID options w e,
   ListRecords_query_err c accountID zoneID options w e,
   fun p hq h => ListDomains_err c accountID options w e p hq h,
   CreateDomain_err c accountID domainAttributes w e,
   GetDomain_err c accountID domain w e,
   DeleteDomain_err c accountID domain w e,
   ResetDomainToken_err c accountID domain w e,
   fun p hq h => ListRecords_err c accountID zoneID options w e p hq h,
   CreateRecord_err c accountID zoneID recordAttributes w e,
   GetRecord_err c accountID zoneID recordID w e,
   UpdateRecord_err c accountID zoneID recordID recordAttributes w e,
   DeleteRecord_err c accountID zoneID recordID w e⟩

/-- C4: when the transport call of an operation succeeds with response `r`, the
operation returns no error and an envelope whose `HttpResponse` is `r` and whose
`Data` is what the transport decoded into the destination; for the list
operations this is the decoded sequence itself, so of the same length and order.
The delete operations pass no destination and their `Data` stays nil. -/
theorem success_returns_envelope_with_response_and_data (c : Client R E O W)
    (accountID zoneID : String) (domain : Value) (recordID : Int) (options : Option O)
    (domainAttributes : Domain) (recordAttributes : ZoneRecord) (w : W) :
    (∀ p, c.addURLQueryOptions (c.versioned (domainPath accountID .nil)) options = (p, none) →
      (c.get .domains p ({} : DomainsResponse R) w).err = none →
      (ListDomains c accountID options w).1
        = (some { HttpResponse := (c.get .domains p ({} : DomainsResponse R) w).resp,
                  Data := DomainsResponse.Data (c.get .domains p ({} : DomainsResponse R) w).obj },
           none)) ∧
    ((c.post .domain (c.versioned (domainPath accountID .nil)) (.domain domainAttributes)
        ({} : DomainResponse R) w).err = none →
      (CreateDomain c accountID domainAttributes w).1
        = (some { HttpResponse := (c.post .domain (c.versioned (domainPath accountID .nil))
                    (.domain domainAttributes) ({} : DomainResponse R) w).resp,
                  Data := DomainResponse.Data (c.post .domain
                    (c.versioned (domainPath accountID .nil))
                    (.domain domainAttributes) ({} : DomainResponse R) w).obj },
           none)) ∧
    ((c.get .domain (c.versioned (domainPath accountID domain))
        ({} : DomainResponse R) w).err = none →
      (GetDomain c accountID domain w).1
        = (some { HttpResponse := (c.get .domain (c.versioned (domainPath accountID domain))
                    ({} : DomainResponse R) w).resp,
                  Data := DomainResponse.Data (c.get .domain
                    (c.versioned (domainPath accountID domain)) ({} : DomainResponse R) w).obj },
           none)) ∧
    ((c.delete .nil (c.versioned (domainPath accountID domain)) .nil () w).err = none →
      (DeleteDomain c accountID domain w).1
        = (some { HttpResponse :=
                    (c.delete .nil (c.versioned (domainPath accountID domain)) .nil () w).resp,
                  Data := none },
           none)) ∧
    ((c.post .domain (c.versioned (domainPath accountID domain ++ "/token")) .nil
        ({} : DomainResponse R) w).err = none →
      (ResetDomainToken c accountID domain w).1
        = (some { HttpResponse := (c.post .domain
                    (c.versioned (domainPath accountID domain ++ "/token")) .nil
                    ({} : DomainResponse R) w).resp,
                  Data := DomainResponse.Data (c.post .domain
                    (c.versioned (domainPath accountID domain ++ "/token")) .nil
                    ({} : DomainResponse R) w).obj },
           none)) ∧
    (∀ p, c.addURLQueryOptions (c.versioned (zoneRecordPath accountID zoneID 0)) options
        = (p, none) →
      (c.get .records p ({} : ZoneRecordsResponse R) w).err = none →
      (ListRecords c accountID zoneID options w).1
        = (some { HttpResponse := (c.get .records p ({} : ZoneRecordsResponse R) w).resp,
                  Data := ZoneRecordsResponse.Data
                    (c.get .records p ({} : ZoneRecordsResponse R) w).obj },
           none)) ∧
    ((c.post .record (c.versioned (zoneRecordPath accountID zoneID 0)) (.record recordAttributes)
        ({} : ZoneRecordResponse R) w).err = none →
      (CreateRecord c accountID zoneID recordAttributes w).1
        = (some { HttpResponse := (c.post .record
                    (c.versioned (zoneRecordPath accountID zoneID 0))
                    (.record recordAttributes) ({} : ZoneRecordResponse R) w).resp,
                  Data := ZoneRecordResponse.Data (c.post .record
                    (c.versioned (zoneRecordPath accountID zoneID 0))
                    (.record recordAttributes) ({} : ZoneRecordResponse R) w).obj },
           none)) ∧
    ((c.get .record (c.versioned (zoneRecordPath accountID zoneID recordID))
        ({} : ZoneRecordResponse R) w).err = none →
      (GetRecord c accountID zoneID recordID w).1
        = (some { HttpResponse := (c.get .record
                    (c.versioned (zoneRecordPath accountID zoneID recordID))
                    ({} : ZoneRecordResponse R) w).resp,
                  Data := ZoneRecordResponse.Data (c.get .record
                    (c.versioned (zoneRecordPath accountID zoneID recordID))
                    ({} : ZoneRecordResponse R) w).obj },
           none)) ∧
    ((c.patch .record (c.versioned (zoneRecordPath accountID zoneID recordID))
        (.record recordAttributes) ({} : ZoneRecordResponse R) w).err = none →
      (UpdateRecord c accountID zoneID recordID recordAttributes w).1
        = (some { HttpResponse := (c.patch .record
                    (c.versioned (zoneRecordPath accountID zoneID recordID))
                    (.record recordAttributes) ({} : ZoneRecordResponse R) w).resp,
                  Data := ZoneRecordResponse.Data (c.patch .record
                    (c.versioned (zoneRecordPath accountID zoneID recordID))
                    (.record recordAttributes) ({} : ZoneRecordResponse R) w).obj },
           none)) ∧
    ((c.delete .nil (c.versioned (zoneRecordPath accountID zoneID recordID)) .nil () w).err
        = none →
      (DeleteRecord c accountID zoneID recordID w).1
        = (some { HttpResponse := (c.delete .nil
                    (c.versioned (zoneRecordPath accountID zoneID recordID)) .nil () w).resp,
                  Data := none },
           none)) :=
  ⟨fun p hq h => ListDomains_ok c accountID options w p hq h,
   CreateDomain_ok c accountID domainAttributes w,
   GetDomain_ok c accountID domain w,
   DeleteDomain_ok c accountID domain w,
   ResetDomainToken_ok c accountID domain w,
   fun p hq h => ListRecords_ok c accountID zoneID options w p hq h,
   CreateRecord_ok c accountID zoneID recordAttributes w,
   GetRecord_ok c accountID zoneID recordID w,
   UpdateRecord_ok c accountID zoneID recordID recordAttributes w,
   DeleteRecord_ok c accountID zoneID recordID w⟩

/-- Witness of C3: the transport that is down fails every operation with
`"unreachable"`, and the failing encoder fails the two lists with `"bad options"`. -/
theorem failure_returns_no_envelope_and_the_error_witness :
    ((badQueryClient.addURLQueryOptions "/v2/1010/domains" none).2 = some "bad options" ∧
      (ListDomains badQueryClient "1010" none 0).1 = (none, some "bad options")) ∧
    (ListRecords badQueryClient "1010" "example.com" none 0).1 = (none, some "bad options") ∧
    ((downClient.get .domains "/v2/1010/domains" ({} : DomainsResponse Nat) 0).err
        = some "unreachable" ∧
      (ListDomains downClient "1010" none 0).1 = (none, some "unreachable")) ∧
    (CreateDomain downClient "1010" { Name := "example.com" } 0).1
      = (none, some "unreachable") ∧
    (GetDomain downClient "1010" (.int 123) 0).1 = (none, some "unreachable") ∧
    (DeleteDomain downClient "1010" (.int 123) 0).1 = (none, some "unreachable") ∧
    (ResetDomainToken downClient "1010" (.int 123) 0).1 = (none, some "unreachable") ∧
    (ListRecords downClient "1010" "example.com" none 0).1 = (none, some "unreachable") ∧
    (CreateRecord downClient "1010" "example.com" { Name := "www" } 0).1
      = (none, some "unreachable") ∧
    (GetRecord downClient "1010" "example.com" 5 0).1 = (none, some "unreachable") ∧
    (UpdateRecord downClient "1010" "example.com" 5 { Name := "www" } 0).1
      = (none, some "unreachable") ∧
    (DeleteRecord downClient "1010" "example.com" 5 0).1 = (none, some "unreachable") :=
  ⟨⟨rfl, (failure_returns_no_envelope_and_the_error badQueryClient "1010" "example.com"
      (.int 123) 5 none { Name := "example.com" } { Name := "www" } 0 "bad options").1 rfl⟩,
   (failure_returns_no_envelope_and_the_error badQueryClient "1010" "example.com"
      (.int 123) 5 none { Name := "example.com" } { Name := "www" } 0 "bad options").2.1 rfl,
   ⟨rfl, (failure_returns_no_envelope_and_the_error downClient "1010" "example.com"
      (.int 123) 5 none { Name := "example.com" } { Name := "www" } 0 "unreachable").2.2.1
      "/v2/1010/domains" rfl rfl⟩,
   (failure_returns_no_envelope_and_the_error downClient "1010" "example.com"
      (.int 123) 5 none { Name := "example.com" } { Name := "www" } 0 "unreachable").2.2.2.1 rfl,
   (failure_returns_no_envelope_and_the_error downClient "1010" "example.com"
      (.int 123) 5 none { Name := "example.com" } { Name := "www" } 0
      "unreachable").2.2.2.2.1 rfl,
   (failure_returns_no_envelope_and_the_error downClient "1010" "example.com"
      (.int 123) 5 none { Name := "example.com" } { Name := "www" } 0
      "unreachable").2.2.2.2.2.1 rfl,
   (failure_returns_no_envelope_and_the_error downClient "1010" "example.com"
      (.int 123) 5 none { Name := "example.com" } { Name := "www" } 0
      "unreachable").2.2.2.2.2.2.1 rfl,
   (failure_returns_no_envelope_and_the_error downClient "1010" "example.com"
      (.int 123) 5 none { Name := "example.com" } { Name := "www" } 0
      "unreachable").2.2.2.2.2.2.2.1 "/v2/1010/zones/example.com/records" rfl rfl,
   (failure_returns_no_envelope_and_the_error downClient "1010" "example.com"
      (.int 123) 5 none { Name := "example.com" } { Name := "www" } 0
      "unreachable").2.2.2.2.2.2.2.2.1 rfl,
   (failure_returns_no_envelope_and_the_error downClient "1010" "example.com"
      (.int 123) 5 none { Name := "example.com" } { Name := "www" } 0
      "unreachable").2.2.2.2.2.2.2.2.2.1 rfl,
   (failure_returns_no_envelope_and_the_error downClient "1010" "example.com"
      (.int 123) 5 none { Name := "example.com" } { Name := "www" } 0
      "unreachable").2.2.2.2.2.2.2.2.2.2.1 rfl,
   (failure_returns_no_envelope_and_the_error downClient "1010" "example.com"
      (.int 123) 5 none { Name := "example.com" } { Name := "www" } 0
      "unreachable").2.2.2.2.2.2.2.2.2.2.2 rfl⟩

/-- Witness of C4 on the sample transport: each operation returns the status the
transport answered and the data it decoded; the two lists return the two decoded
records in the decoded order. -/
theorem success_returns_envelope_with_response_and_data_witness :
    ((v2Client.get .domains "/v2/1010/domains" ({} : DomainsResponse Nat) 0).err = none ∧
      (ListDomains v2Client "1010" none 0).1
        = (some { HttpResponse := some 200, Data := sampleDomains }, none)) ∧
    (CreateDomain v2Client "1010" { Name := "example.com" } 0).1
      = (some { HttpResponse := some 201, Data := some { ID := 1, Name := "example.com" } },
         none) ∧
    (GetDomain v2Client "1010" (.int 123) 0).1
      = (some { HttpResponse := some 200, Data := some { ID := 1, Name := "example.com" } },
         none) ∧
    (DeleteDomain v2Client "1010" (.int 123) 0).1
      = (some { HttpResponse := some 204, Data := none }, none) ∧
    (ResetDomainToken v2Client "1010" (.int 123) 0).1
      = (some { HttpResponse := some 201, Data := some { ID := 1, Name := "example.com" } },
         none) ∧
    (ListRecords v2Client "1010" "example.com" none 0).1
      = (some { HttpResponse := some 200, Data := sampleRecords }, none) ∧
    (CreateRecord v2Client "1010" "example.com" { Name := "www" } 0).1
      = (some { HttpResponse := some 201,
                Data := some { ID := 64784, ZoneID := "example.com" } }, none) ∧
    (GetRecord v2Client "1010" "example.com" 5 0).1
      = (some { HttpResponse := some 200,
                Data := some { ID := 64784, ZoneID := "example.com" } }, none) ∧
    (UpdateRecord v2Client "1010" "example.com" 5 { Name := "www" } 0).1
      = (some { HttpResponse := some 200,
                Data := some { ID := 64784, ZoneID := "example.com" } }, none) ∧
    (DeleteRecord v2Client "1010" "example.com" 5 0).1
      = (some { HttpResponse := some 204, Data := none }, none) :=
  ⟨⟨rfl, (success_returns_envelope_with_response_and_data v2Client "1010" "example.com"
      (.int 123) 5 none { Name := "example.com" } { Name := "www" } 0).1
      "/v2/1010/domains" rfl rfl⟩,
   (success_returns_envelope_with_response_and_data v2Client "1010" "example.com"
      (.int 123) 5 none { Name := "example.com" } { Name := "www" } 0).2.1 rfl,
   (success_returns_envelope_with_response_and_data v2Client "1010" "example.com"
      (.int 123) 5 none { Name := "example.com" } { Name := "www" } 0).2.2.1 rfl,
   (success_returns_envelope_with_response_and_data v2Client "1010" "example.com"
      (.int 123) 5 none { Name := "example.com" } { Name := "www" } 0).2.2.2.1 rfl,
   (success_returns_envelope_with_response_and_data v2Client "1010" "example.com"
      (.int 123) 5 none { Name := "example.com" } { Name := "www" } 0).2.2.2.2.1 rfl,
   (success_returns_envelope_with_response_and_data v2Client "1010" "example.com"
      (.int 123) 5 none { Name := "example.com" } { Name := "www" } 0).2.2.2.2.2.1
      "/v2/1010/zones/example.com/records" rfl rfl,
   (success_returns_envelope_with_response_and_data v2Client "1010" "example.com"
      (.int 123) 5 none { Name := "example.com" } { Name := "www" } 0).2.2.2.2.2.2.1 rfl,
   (success_returns_envelope_with_response_and_data v2Client "1010" "example.com"
      (.int 123) 5 none { Name := "example.com" } { Name := "www" } 0).2.2.2.2.2.2.2.1 rfl,
   (success_returns_envelope_with_response_and_data v2Client "1010" "example.com"
      (.int 123) 5 none { Name := "example.com" } { Name := "www" } 0).2.2.2.2.2.2.2.2.1 rfl,
   (success_returns_envelope_with_response_and_data v2Client "1010" "example.com"
      (.int 123) 5 none { Name := "example.com" } { Name := "www" } 0).2.2.2.2.2.2.2.2.2 rfl⟩

end ResultClaims

/-! ## Claims on the issued calls -/

section CallClaims

variable {R E O W : Type}

/-- C5 fails as stated for the list operations: when the query-option encoder
fails, `ListDomains` and `ListRecords` return before the transport is called, so
the operation issues no transport call at all. -/
theorem list_with_failing_encoder_issues_no_call :
    (badQueryClient.addURLQueryOptions
        (badQueryClient.versioned (domainPath "1010" .nil)) none).2 = some "bad options" ∧
    (ListDomains badQueryClient.recorded "1010" none ([], 0)).2.1 = [] ∧
    (ListDomains badQueryClient.recorded "1010" none ([], 0)).2.1.length ≠ 1 ∧
    (ListRecords badQueryClient.recorded "1010" "example.com" none ([], 0)).2.1 = [] ∧
    (ListRecords badQueryClient.recorded "1010" "example.com" none ([], 0)).2.1.length ≠ 1 := by
  decide

/-- C5 as amended: every operation other than the two lists issues exactly one
transport call, with its verb, the versioned path, its body and its destination;
a list operation issues exactly one GET on the path the query-option encoder
returns for the versioned collection path when the encoding succeeds, and no call
when the encoding fails. With a `/v2` prefix the three example calls are
`GET /v2/1010/domains/123`, `GET /v2/1010/zones/example.com/records` (options that
leave the path unchanged) and `POST /v2/1010/domains/example.com/token` with a nil
body. -/
theorem operations_issue_their_call (c : Client R E O W)
    (accountID zoneID : String) (domain : Value) (recordID : Int) (options : Option O)
    (domainAttributes : Domain) (recordAttributes : ZoneRecord) (log : List Call) (w : W) :
    (∀ p, c.addURLQueryOptions (c.versioned (domainPath accountID .nil)) options = (p, none) →
      (ListDomains c.recorded accountID options (log, w)).2.1
        = log ++ [⟨.GET, p, .nil, .domains⟩]) ∧
    (∀ e, (c.addURLQueryOptions (c.versioned (domainPath accountID .nil)) options).2 = some e →
      (ListDomains c.recorded accountID options (log, w)).2.1 = log) ∧
    (CreateDomain c.recorded accountID domainAttributes (log, w)).2.1
      = log ++ [⟨.POST, c.versioned (domainPath accountID .nil),
                 .domain domainAttributes, .domain⟩] ∧
    (GetDomain c.recorded accountID domain (log, w)).2.1
      = log ++ [⟨.GET, c.versioned (domainPath accountID domain), .nil, .domain⟩] ∧
    (DeleteDomain c.recorded accountID domain (log, w)).2.1
      = log ++ [⟨.DELETE, c.versioned (domainPath accountID domain), .nil, .nil⟩] ∧
    (ResetDomainToken c.recorded accountID domain (log, w)).2.1
      = log ++ [⟨.POST, c.versioned (domainPath accountID domain ++ "/token"), .nil, .domain⟩] ∧
    (∀ p, c.addURLQueryOptions (c.versioned (zoneRecordPath accountID zoneID 0)) options
        = (p, none) →
      (ListRecords c.recorded accountID zoneID options (log, w)).2.1
        = log ++ [⟨.GET, p, .nil, .records⟩]) ∧
    (∀ e, (c.addURLQueryOptions (c.versioned (zoneRecordPath accountID zoneID 0)) options).2
        = some e →
      (ListRecords c.recorded accountID zoneID options (log, w)).2.1 = log) ∧
    (CreateRecord c.recorded accountID zoneID recordAttributes (log, w)).2.1
      = log ++ [⟨.POST, c.versioned (zoneRecordPath accountID zoneID 0),
                 .record recordAttributes, .record⟩] ∧
    (GetRecord c.recorded accountID zoneID recordID (log, w)).2.1
      = log ++ [⟨.GET, c.versioned (zoneRecordPath accountID zoneID recordID), .nil, .record⟩] ∧
    (UpdateRecord c.recorded accountID zoneID recordID recordAttributes (log, w)).2.1
      = log ++ [⟨.PATCH, c.versioned (zoneRecordPath accountID zoneID recordID),
                 .record recordAttributes, .record⟩] ∧
    (DeleteRecord c.recorded accountID zoneID recordID (log, w)).2.1
      = log ++ [⟨.DELETE, c.versioned (zoneRecordPath accountID zoneID recordID), .nil, .nil⟩] ∧
    ((∀ p, c.versioned p = "/v2" ++ p) →
      (GetDomain c.recorded "1010" (.int 123) (log, w)).2.1
        = log ++ [⟨.GET, "/v2/1010/domains/123", .nil, .domain⟩] ∧
      (ResetDomainToken c.recorded "1010" (.str "example.com") (log, w)).2.1
        = log ++ [⟨.POST, "/v2/1010/domains/example.com/token", .nil, .domain⟩] ∧
      (c.addURLQueryOptions "/v2/1010/zones/example.com/records" none
          = ("/v2/1010/zones/example.com/records", none) →
        (ListRecords c.recorded "1010" "example.com" none (log, w)).2.1
          = log ++ [⟨.GET, "/v2/1010/zones/example.com/records", .nil, .records⟩])) := by
  refine ⟨fun p hq => ListDomains_calls c accountID options log w p hq,
    fun e h => ListDomains_calls_query_err c accountID options log w e h,
    CreateDomain_calls c accountID domainAttributes log w,
    GetDomain_calls c accountID domain log w,
    DeleteDomain_calls c accountID domain log w,
    ResetDomainToken_calls c accountID domain log w,
    fun p hq => ListRecords_calls c accountID zoneID options log w p hq,
    fun e h => ListRecords_calls_query_err c accountID zoneID options log w e h,
    CreateRecord_calls c accountID zoneID recordAttributes log w,
    GetRecord_calls c accountID zoneID recordID log w,
    UpdateRecord_calls c accountID zoneID recordID recordAttributes log w,
    DeleteRecord_calls c accountID zoneID recordID log w, fun hv => ⟨?_, ?_, fun hq => ?_⟩⟩
  · rw [GetDomain_calls, hv]
    rfl
  · rw [ResetDomainToken_calls, hv]
    rfl
  · have e : c.versioned (zoneRecordPath "1010" "example.com" 0)
        = "/v2/1010/zones/example.com/records" := by rw [hv]; rfl
    exact ListRecords_calls c "1010" "example.com" none log w _ (by rw [e]; exact hq)

/-- Witness of the amended C5 on the sample transport with the `/v2` prefix,
starting from an empty log. -/
theorem operations_issue_their_call_witness :
    (ListDomains v2Client.recorded "1010" none ([], 0)).2.1
      = [⟨.GET, "/v2/1010/domains", .nil, .domains⟩] ∧
    (ListDomains badQueryClient.recorded "1010" none ([], 0)).2.1 = [] ∧
    (ListRecords v2Client.recorded "1010" "example.com" (some ()) ([], 0)).2.1
      = [⟨.GET, "/v2/1010/zones/example.com/records?page=1", .nil, .records⟩] ∧
    (ListRecords badQueryClient.recorded "1010" "example.com" none ([], 0)).2.1 = [] ∧
    (GetDomain v2Client.recorded "1010" (.int 123) ([], 0)).2.1
      = [⟨.GET, "/v2/1010/domains/123", .nil, .domain⟩] ∧
    (ResetDomainToken v2Client.recorded "1010" (.str "example.com") ([], 0)).2.1
      = [⟨.POST, "/v2/1010/domains/example.com/token", .nil, .domain⟩] ∧
    (ListRecords v2Client.recorded "1010" "example.com" none ([], 0)).2.1
      = [⟨.GET, "/v2/1010/zones/example.com/records", .nil, .records⟩] :=
  ⟨(operations_issue_their_call v2Client "1010" "example.com" (.int 123) 5 none {} {} [] 0).1
      "/v2/1010/domains" rfl,
   (operations_issue_their_call badQueryClient "1010" "example.com" (.int 123) 5 none {} {}
      [] 0).2.1 "bad options" rfl,
   (operations_issue_their_call v2Client "1010" "example.com" (.int 123) 5 (some ()) {} {}
      [] 0).2.2.2.2.2.2.1 "/v2/1010/zones/example.com/records?page=1" (by decide),
   (operations_issue_their_call badQueryClient "1010" "example.com" (.int 123) 5 none {} {}
      [] 0).2.2.2.2.2.2.2.1 "bad options" rfl,
   ((operations_issue_their_call v2Client "1010" "example.com" (.int 123) 5 none {} {}
      [] 0).2.2.2.2.2.2.2.2.2.2.2.2 (fun _ => rfl)).1,
   ((operations_issue_their_call v2Client "1010" "example.com" (.int 123) 5 none {} {}
      [] 0).2.2.2.2.2.2.2.2.2.2.2.2 (fun _ => rfl)).2.1,
   ((operations_issue_their_call v2Client "1010" "example.com" (.int 123) 5 none {} {}
      [] 0).2.2.2.2.2.2.2.2.2.2.2.2 (fun _ => rfl)).2.2 rfl⟩

/-- C6: `DeleteDomain` and `DeleteRecord` call the transport's `delete` with a nil
request body and a nil result destination, and when that call succeeds they
return an envelope whose `Data` is nil and whose `HttpResponse` is the transport
response. -/
theorem delete_returns_envelope_without_payload (c : Client R E O W)
    (accountID zoneID : String) (domain : Value) (recordID : Int) (log : List Call) (w : W) :
    (DeleteDomain c.recorded accountID domain (log, w)).2.1
      = log ++ [⟨.DELETE, c.versioned (domainPath accountID domain), .nil, .nil⟩] ∧
    ((c.delete .nil (c.versioned (domainPath accountID domain)) .nil () w).err = none →
      (DeleteDomain c accountID domain w).1
        = (some { HttpResponse :=
                    (c.delete .nil (c.versioned (domainPath accountID domain)) .nil () w).resp,
                  Data := none },
           none)) ∧
    (DeleteRecord c.recorded accountID zoneID recordID (log, w)).2.1
      = log ++ [⟨.DELETE, c.versioned (zoneRecordPath accountID zoneID recordID), .nil, .nil⟩] ∧
    ((c.delete .nil (c.versioned (zoneRecordPath accountID zoneID recordID)) .nil () w).err
        = none →
      (DeleteRecord c accountID zoneID recordID w).1
        = (some { HttpResponse := (c.delete .nil
                    (c.versioned (zoneRecordPath accountID zoneID recordID)) .nil () w).resp,
                  Data := none },
           none)) :=
  ⟨DeleteDomain_calls c accountID domain log w,
   DeleteDomain_ok c accountID domain w,
   DeleteRecord_calls c accountID zoneID recordID log w,
   DeleteRecord_ok c accountID zoneID recordID w⟩

/-- Witness of C6 on the sample transport, whose `delete` answers 204. -/
theorem delete_returns_envelope_without_payload_witness :
    (v2Client.delete .nil "/v2/1010/domains/example.com" .nil () 0).err = none ∧
    (DeleteDomain v2Client "1010" (.str "example.com") 0).1
      = (some { HttpResponse := some 204, Data := none }, none) ∧
    (v2Client.delete .nil "/v2/1010/zones/example.com/records/5" .nil () 0).err = none ∧
    (DeleteRecord v2Client "1010" "example.com" 5 0).1
      = (some { HttpResponse := some 204, Data := none }, none) :=
  ⟨rfl,
   (delete_returns_envelope_without_payload v2Client "1010" "example.com"
      (.str "example.com") 5 [] 0).2.1 rfl,
   rfl,
   (delete_returns_envelope_without_payload v2Client "1010" "example.com"
      (.str "example.com") 5 [] 0).2.2.2 rfl⟩

/-- C10: the zero sentinel holds for record IDs only. `domainPath accountID 0` is
the item path `/accountID/domains/0`, different from the collection path, while
`zoneRecordPath accountID zoneID 0` is the records collection path; so
`GetRecord`, `UpdateRecord` and `DeleteRecord` with record ID 0 call the
collection path, and `GetDomain` and `DeleteDomain` with 0 call `/domains/0`. -/
theorem zero_is_absent_for_records_only (c : Client R E O W) (accountID zoneID : String)
    (recordAttributes : ZoneRecord) (log : List Call) (w : W) :
    domainPath accountID (.int 0) = "/" ++ accountID ++ "/domains/0" ∧
    domainPath accountID (.int 0) ≠ domainPath accountID .nil ∧
    zoneRecordPath accountID zoneID 0
      = "/" ++ accountID ++ "/zones/" ++ zoneID ++ "/records" ∧
    (GetRecord c.recorded accountID zoneID 0 (log, w)).2.1
      = log ++ [⟨.GET, c.versioned ("/" ++ accountID ++ "/zones/" ++ zoneID ++ "/records"),
                 .nil, .record⟩] ∧
    (UpdateRecord c.recorded accountID zoneID 0 recordAttributes (log, w)).2.1
      = log ++ [⟨.PATCH, c.versioned ("/" ++ accountID ++ "/zones/" ++ zoneID ++ "/records"),
                 .record recordAttributes, .record⟩] ∧
    (DeleteRecord c.recorded accountID zoneID 0 (log, w)).2.1
      = log ++ [⟨.DELETE, c.versioned ("/" ++ accountID ++ "/zones/" ++ zoneID ++ "/records"),
                 .nil, .nil⟩] ∧
    (GetDomain c.recorded accountID (.int 0) (log, w)).2.1
      = log ++ [⟨.GET, c.versioned ("/" ++ accountID ++ "/domains/0"), .nil, .domain⟩] ∧
    (DeleteDomain c.recorded accountID (.int 0) (log, w)).2.1
      = log ++ [⟨.DELETE, c.versioned ("/" ++ accountID ++ "/domains/0"), .nil, .nil⟩] := by
  have e0 : domainPath accountID (.int 0) = "/" ++ accountID ++ "/domains/0" := by
    have e : ("/domains/0" : String) = "/domains/" ++ "0" := by decide
    rw [e, ← String.append_assoc]
    rfl
  refine ⟨e0, ?_, rfl, ?_, ?_, ?_, ?_, ?_⟩
  · rw [e0, domainPath_nil]
    exact append_ne_append_of_ne _ _ _ (by decide)
  · rw [GetRecord_calls, zoneRecordPath_zero]
  · rw [UpdateRecord_calls, zoneRecordPath_zero]
  · rw [DeleteRecord_calls, zoneRecordPath_zero]
  · rw [GetDomain_calls, e0]
  · rw [DeleteDomain_calls, e0]

end CallClaims

/-! ## Claims on the request body -/

theorem mem_marshalFields (fs : List Field) (kv : String × JSON) :
    kv ∈ marshalFields fs ↔
      ∃ f ∈ fs, (f.omitempty && f.value.isEmptyValue) = false ∧ (f.key, f.value) = kv := by
  unfold marshalFields
  rw [List.mem_filterMap]
  constructor
  · rintro ⟨f, hf, h⟩
    refine ⟨f, hf, ?_⟩
    cases hc : (f.omitempty && f.value.isEmptyValue)
    · rw [hc] at h
      exact ⟨rfl, by simpa using h⟩
    · rw [hc] at h
      simp at h
  · rintro ⟨f, hf, hc, h⟩
    exact ⟨f, hf, by rw [hc]; simpa using h⟩

theorem marshalFields_spec (fs : List Field) (hnd : (fs.map Field.key).Nodup)
    (hnn : ∀ f ∈ fs, f.value ≠ JSON.null) :
    (∀ f ∈ fs, f.omitempty = true → f.value.isEmptyValue = true →
      f.key ∉ (marshalFields fs).map Prod.fst) ∧
    (∀ kv ∈ marshalFields fs, kv.2 ≠ JSON.null) ∧
    (∀ kv ∈ marshalFields fs, ∃ f ∈ fs, f.key = kv.1 ∧ f.value = kv.2 ∧
      (f.omitempty = false ∨ f.value.isEmptyValue = false)) := by
  refine ⟨fun f hf ho he hk => ?_, fun kv hkv => ?_, fun kv hkv => ?_⟩
  · obtain ⟨kv, hkv, hkey⟩ := List.mem_map.mp hk
    obtain ⟨g, hg, hc, rfl⟩ := (mem_marshalFields fs kv).mp hkv
    have hgf : g = f := List.inj_on_of_nodup_map hnd hg hf hkey
    subst hgf
    rw [ho, he] at hc
    exact absurd hc (by decide)
  · obtain ⟨g, hg, _, rfl⟩ := (mem_marshalFields fs kv).mp hkv
    exact hnn g hg
  · obtain ⟨g, hg, hc, rfl⟩ := (mem_marshalFields fs kv).mp hkv
    refine ⟨g, hg, rfl, rfl, ?_⟩
    cases ho : g.omitempty
    · exact Or.inl rfl
    · rw [ho] at hc
      exact Or.inr (by simpa using hc)

theorem domain_fields_keys (d : Domain) :
    d.fields.map Field.key =
      ["id", "account_id", "registrant_id", "name", "unicode_name", "token", "state",
       "auto_renew", "private_whois", "expires_on", "created_at", "updated_at"] := rfl

theorem record_fields_keys (r : ZoneRecord) :
    r.fields.map Field.key =
      ["id", "zone_id", "parent_id", "type", "name", "content", "ttl", "priority",
       "system_record", "created_at", "updated_at"] := rfl

theorem domain_fields_tagged (d : Domain) :
    ∀ f ∈ d.fields, f.omitempty = true ∧ f.value ≠ JSON.null := by
  intro f hf
  simp only [Domain.fields, List.mem_cons, List.mem_singleton, List.not_mem_nil, or_false] at hf
  rcases hf with h | h | h | h | h | h | h | h | h | h | h | h <;> subst h <;> simp

theorem record_fields_tagged (r : ZoneRecord) :
    ∀ f ∈ r.fields, (f.omitempty = false → f.key = "name") ∧ f.value ≠ JSON.null := by
  intro f hf
  simp only [ZoneRecord.fields, List.mem_cons, List.mem_singleton, List.not_mem_nil,
    or_false] at hf
  rcases hf with h | h | h | h | h | h | h | h | h | h | h <;> subst h <;> simp

/-- C9 fails as stated for `ZoneRecord`: the tag of `Name` has no `omitempty`, so
a record created with `Name` left unset is sent with `"name": ""`, a field that
was not set. -/
theorem unset_record_name_is_sent :
    apexRecord.Name = "" ∧
    (Payload.record apexRecord).wire
      = some [("type", .str "A"), ("name", .str ""), ("content", .str "1.2.3.4")] ∧
    ¬ OnlySetFieldsOnWire apexRecord.fields (marshalFields apexRecord.fields) := by
  refine ⟨rfl, by decide, ?_⟩
  rintro ⟨h, _, _⟩
  exact h ⟨"name", false, .str ""⟩ (by decide) (by decide) (by decide)

/-- C9 as amended: the body of `CreateDomain` contains exactly the fields of the
`Domain` that are not at their zero value and no `null`. The body of
`CreateRecord` omits every field other than `name` that is at its zero value,
contains no `null`, and every member is a field that is not at its zero value or
is `name`; `name`, whose tag has no `omitempty`, is always sent. -/
theorem create_body_omits_unset_tagged_fields (d : Domain) (r : ZoneRecord)
    (wd wr : List (String × JSON))
    (hd : (Payload.domain d).wire = some wd) (hr : (Payload.record r).wire = some wr) :
    OnlySetFieldsOnWire d.fields wd ∧
    (∀ f ∈ r.fields, f.key ≠ "name" → f.value.isEmptyValue = true →
      f.key ∉ wr.map Prod.fst) ∧
    (∀ kv ∈ wr, kv.2 ≠ JSON.null) ∧
    (∀ kv ∈ wr, ∃ f ∈ r.fields, f.key = kv.1 ∧ f.value = kv.2 ∧
      (f.value.isEmptyValue = false ∨ kv.1 = "name")) ∧
    ("name", JSON.str r.Name) ∈ wr := by
  have ed : wd = marshalFields d.fields := (Option.some.inj hd).symm
  have er : wr = marshalFields r.fields := (Option.some.inj hr).symm
  subst ed er
  have hD := marshalFields_spec d.fields (by rw [domain_fields_keys]; decide)
    (fun f hf => (domain_fields_tagged d f hf).2)
  have hR := marshalFields_spec r.fields (by rw [record_fields_keys]; decide)
    (fun f hf => (record_fields_tagged r f hf).2)
  refine ⟨⟨fun f hf he => hD.1 f hf (domain_fields_tagged d f hf).1 he, hD.2.1,
      fun kv hkv => ?_⟩, fun f hf hne he => ?_, hR.2.1, fun kv hkv => ?_, ?_⟩
  · obtain ⟨f, hf, hk, hv, ho⟩ := hD.2.2 kv hkv
    refine ⟨f, hf, hk, hv, ?_⟩
    rcases ho with ho | ho
    · rw [(domain_fields_tagged d f hf).1] at ho
      exact absurd ho (by decide)
    · exact ho
  · refine hR.1 f hf ?_ he
    cases ho : f.omitempty
    · exact absurd ((record_fields_tagged r f hf).1 ho) hne
    · rfl
  · obtain ⟨f, hf, hk, hv, ho⟩ := hR.2.2 kv hkv
    refine ⟨f, hf, hk, hv, ?_⟩
    rcases ho with ho | ho
    · exact Or.inr (hk ▸ (record_fields_tagged r f hf).1 ho)
    · exact Or.inl ho
  · rw [mem_marshalFields]
    exact ⟨⟨"name", false, .str r.Name⟩, by simp [ZoneRecord.fields], rfl, rfl⟩

/-- Witness of the amended C9: a domain with only `Name` set is sent as the single
member `name`; the apex record is sent without `ttl`, with `name` present. -/
theorem create_body_omits_unset_tagged_fields_witness :
    (Payload.domain { Name := "example.com" }).wire = some [("name", .str "example.com")] ∧
    OnlySetFieldsOnWire ({ Name := "example.com" } : Domain).fields
      [("name", .str "example.com")] ∧
    "ttl" ∉ (marshalFields apexRecord.fields).map Prod.fst ∧
    ("name", JSON.str "") ∈ marshalFields apexRecord.fields :=
  ⟨by decide,
   (create_body_omits_unset_tagged_fields { Name := "example.com" } apexRecord
      [("name", .str "example.com")] (marshalFields apexRecord.fields)
      (by decide) rfl).1,
   (create_body_omits_unset_tagged_fields { Name := "example.com" } apexRecord
      [("name", .str "example.com")] (marshalFields apexRecord.fields)
      (by decide) rfl).2.1 ⟨"ttl", true, .num 0⟩ (by decide) (by decide) (by decide),
   (create_body_omits_unset_tagged_fields { Name := "example.com" } apexRecord
      [("name", .str "example.com")] (marshalFields apexRecord.fields)
      (by decide) rfl).2.2.2.2⟩

/-! ## Evaluations on concrete inputs -/

example : sprintfD 123 = "123" := by decide
example : sprintfD 0 = "0" := by decide
example : sprintfD (-7) = "-7" := by decide
example : domainPath "1010" (.int 123) = "/1010/domains/123" := by decide
example : domainPath "1010" (.str "") = "/1010/domains/" := by decide
example : zoneRecordPath "1010" "example.com" 0 = "/1010/zones/example.com/records" := by decide
example : zoneRecordPath "1010" "example.com" 5 = "/1010/zones/example.com/records/5" := by decide
example : endsWithSlash (domainPath "1010" (.str "")) = true := by decide

example : (GetDomain v2Client "1010" (.int 123) 0).1
    = (some { HttpResponse := some 200, Data := some { ID := 1, Name := "example.com" } }, none) := by
  decide
example : (GetDomain v2Client.recorded "1010" (.int 123) ([], 0)).2.1
    = [⟨.GET, "/v2/1010/domains/123", .nil, .domain⟩] := by decide
example : (ListDomains badQueryClient.recorded "1010" none ([], 0)).2.1 = [] := by decide
example : marshalFields ({} : ZoneRecord).fields = [("name", .str "")] := by decide

end Dnsimple
